import Mathlib

/-!
Verification of the SensDot wake/sleep core (MicroPython firmware).

Shallow embedding of the decision logic in `src/pir_wakeup.py`,
`src/main.py`, `src/button.py`, `src/indication.py` and
`src/config_manager.py`.  Machine integers are modelled as `Nat`/`Int`
(MicroPython integers are unbounded; the RTC-memory timestamp layout is
unsigned 64-bit little-endian), byte buffers as `List Nat` with entries
below 256, and fallible platform reads as `Option`/`Except`.
-/

namespace SensDot

/-- Wake cause as classified by the firmware (`machine.wake_reason()`):
`pinLevelWake` corresponds to `machine.PIN_WAKE`. -/
inductive WakeReason
  | coldBootOrReset
  | timerExpired
  | pinLevelWake
  | unknown
deriving DecidableEq, Repr

/-- Outcome of the motion gatekeeper decision, as in the specification:
`accept` carries the elapsed seconds, `suppress` the remaining cooldown. -/
inductive MotionDecision
  | notApplicable
  | accept (elapsed_s : Int)
  | suppress (remaining_s : Int)
deriving DecidableEq, Repr

/- ## Persistent Wake State Store (`src/pir_wakeup.py`, lines 64-90) -/

/-- Little-endian packing of `t` into `n` bytes, as `struct.pack` with the
format character Q does for n = 8 (each byte is the value modulo 256,
then recurse on the quotient). -/
def packLE : Nat → Nat → List Nat
  | 0, _ => []
  | n + 1, t => (t % 256) :: packLE n (t / 256)

/-- Little-endian unpacking of a byte list, as `struct.unpack` with the
format character Q does on an 8-byte buffer. -/
def unpackLE : List Nat → Nat
  | [] => 0
  | b :: bs => b + 256 * unpackLE bs

/-- `PIRWakeup.save_motion_time`: pack the timestamp as an 8-byte
little-endian value and pad with zero bytes to a 32-byte block, which is
then written to RTC memory.  The returned list is the RTC memory content
after the write. -/
def save_motion_time (timestamp : Nat) : List Nat :=
  let data := packLE 8 timestamp
  data ++ List.replicate (32 - data.length) 0

/-- `PIRWakeup.get_last_motion_time`: read RTC memory (`none` models the
read raising an exception, which the source catches), unpack the first 8
bytes when at least 8 bytes are present, and fall back to 0 ("no previous
motion recorded") in every other case. -/
def get_last_motion_time (mem : Option (List Nat)) : Nat :=
  match mem with
  | none => 0
  | some rtc_data => if rtc_data.length ≥ 8 then unpackLE (rtc_data.take 8) else 0

/- ## Motion Gatekeeper (`src/pir_wakeup.py`, lines 100-171) -/

/-- `PIRWakeup.check_motion_interval`: returns the pair
`(should_continue, time_since_last)`.  The subtraction is the plain
integer subtraction of the source (`current_time - last_motion`), not a
saturating one. -/
def check_motion_interval (current_time : Int) (last_motion : Nat)
    (min_wake_interval : Int) : Bool × Int :=
  if last_motion = 0 then (true, 0)
  else
    let time_since_last : Int := current_time - last_motion
    if time_since_last ≥ min_wake_interval then (true, time_since_last)
    else (false, time_since_last)

/-- Result of `PIRWakeup.handle_motion_wake`: either the boot continues,
or the device re-enters deep sleep for the remaining cooldown. -/
inductive WakeHandling
  | continueBoot
  | sleptAgain (remaining : Int)
deriving DecidableEq, Repr

/-- `PIRWakeup.handle_motion_wake` as a state transformer on the RTC
memory: on a pin wake it consults `check_motion_interval`; on acceptance
it saves the current time, otherwise it sleeps again for
`min_wake_interval - time_since_last`.  Any other wake reason continues
the boot without touching RTC memory. -/
def handle_motion_wake (wake_reason : WakeReason) (now : Nat)
    (mem : Option (List Nat)) (min_wake_interval : Int) :
    WakeHandling × Option (List Nat) :=
  if wake_reason = .pinLevelWake then
    let res := check_motion_interval (now : Int) (get_last_motion_time mem) min_wake_interval
    if res.1 then (.continueBoot, some (save_motion_time now))
    else (.sleptAgain (min_wake_interval - res.2), mem)
  else (.continueBoot, mem)

/-- The decision the code makes, read off `check_motion_interval` and the
`PIN_WAKE` dispatch of `handle_motion_wake`, presented as a
`MotionDecision` for comparison with the specification. -/
def code_motion_decide (wake_reason : WakeReason) (now : Int) (last_motion : Nat)
    (min_wake_interval : Int) : MotionDecision :=
  if wake_reason = .pinLevelWake then
    let res := check_motion_interval now last_motion min_wake_interval
    if res.1 then .accept res.2
    else .suppress (min_wake_interval - res.2)
  else .notApplicable

/-- Reference decision function transcribed from the specification of the
Motion Gatekeeper: elapsed time is the saturating subtraction
`now.saturating_sub(last)` (Nat subtraction), `last = 0` is accepted with
elapsed 0, otherwise accept when the elapsed time reaches the cooldown
and suppress with the remaining cooldown when it does not. -/
def spec_motion_decide (wake_reason : WakeReason) (now last_motion : Nat)
    (min_wake_interval : Nat) : MotionDecision :=
  if wake_reason ≠ .pinLevelWake then .notApplicable
  else
    let elapsed : Nat := now - last_motion
    if last_motion = 0 then .accept 0
    else if elapsed ≥ min_wake_interval then .accept (elapsed : Int)
    else .suppress ((min_wake_interval - elapsed : Nat) : Int)

/- ## Helper lemmas for the byte-level round trip -/

theorem packLE_length : ∀ (n t : Nat), (packLE n t).length = n := by
  intro n
  induction n with
  | zero => intro t; rfl
  | succ m ih => intro t; simp [packLE, ih]

theorem unpackLE_packLE : ∀ (n t : Nat), unpackLE (packLE n t) = t % 256 ^ n := by
  intro n
  induction n with
  | zero => intro t; simp [packLE, unpackLE, Nat.mod_one]
  | succ m ih =>
      intro t
      rw [packLE, unpackLE, ih, pow_succ']
      rw [Nat.mod_mul, Nat.add_comm]

/-- C6: for every unsigned 64-bit timestamp, writing it with
`save_motion_time` and reading it back with `get_last_motion_time`
returns exactly the written value. -/
theorem wake_state_roundtrip (t : Nat) (h : t < 2 ^ 64) :
    get_last_motion_time (some (save_motion_time t)) = t := by
  have hlen : (packLE 8 t).length = 8 := packLE_length 8 t
  have hsave : save_motion_time t = packLE 8 t ++ List.replicate 24 0 := by
    rw [save_motion_time, hlen]
  have htake : (save_motion_time t).take 8 = packLE 8 t := by
    rw [hsave, List.take_append_of_le_length (by rw [hlen]),
      List.take_of_length_le (by rw [hlen])]
  have hlen2 : (save_motion_time t).length ≥ 8 := by
    rw [hsave]
    simp [hlen]
  simp only [get_last_motion_time]
  rw [if_pos hlen2, htake, unpackLE_packLE]
  have h256 : (256 : Nat) ^ 8 = 2 ^ 64 := by norm_num
  rw [h256]
  exact Nat.mod_eq_of_lt h

/-- C6 witness: the round trip holds at the extreme value 2 ^ 64 - 1. -/
theorem wake_state_roundtrip_witness :
    get_last_motion_time (some (save_motion_time (2 ^ 64 - 1))) = 2 ^ 64 - 1 :=
  wake_state_roundtrip (2 ^ 64 - 1) (by norm_num)

/-- C7: reading the store never fails: absent memory or fewer than 8
bytes reads as 0, and the gatekeeper then accepts the first motion event
with elapsed 0. -/
theorem store_read_fails_open (mem : Option (List Nat)) (now : Nat) (minI : Int)
    (h : mem = none ∨ ∀ bs, mem = some bs → bs.length < 8) :
    get_last_motion_time mem = 0 ∧
    check_motion_interval (now : Int) (get_last_motion_time mem) minI = (true, 0) ∧
    code_motion_decide .pinLevelWake (now : Int) (get_last_motion_time mem) minI =
      .accept 0 := by
  have h0 : get_last_motion_time mem = 0 := by
    rcases h with h | h
    · rw [h]; rfl
    · match mem with
      | none => rfl
      | some bs =>
          have := h bs rfl
          rw [get_last_motion_time]
          simp only [ge_iff_le]
          rw [if_neg (by omega)]
  refine ⟨h0, ?_, ?_⟩
  · rw [h0]; rfl
  · rw [h0]; rfl

/-- C7 witness: a 3-byte RTC buffer reads as 0 and the decision is
`accept 0`. -/
theorem store_read_fails_open_witness :
    get_last_motion_time (some [1, 2, 3]) = 0 ∧
    check_motion_interval ((1000 : Nat) : Int) (get_last_motion_time (some [1, 2, 3])) 300 =
      (true, 0) ∧
    code_motion_decide .pinLevelWake ((1000 : Nat) : Int)
      (get_last_motion_time (some [1, 2, 3])) 300 = .accept 0 :=
  store_read_fails_open (some [1, 2, 3]) 1000 300
    (Or.inr (by intro bs hbs; cases hbs; decide))

/-- C1 counterexample: at a pin wake with the clock moved backwards
(now 100, last motion 800, cooldown 300) the code suppresses with
remaining 1000 while the specification's reference definition (with
saturating subtraction) suppresses with remaining 300, so the two
functions differ. -/
theorem motion_decide_counterexample :
    code_motion_decide .pinLevelWake 100 800 300 = .suppress 1000 ∧
    spec_motion_decide .pinLevelWake 100 800 300 = .suppress 300 ∧
    code_motion_decide .pinLevelWake 100 800 300 ≠
      spec_motion_decide .pinLevelWake 100 800 300 := by decide

theorem code_motion_decide_pin (now : Int) (last : Nat) (minI : Int) :
    code_motion_decide .pinLevelWake now last minI =
      if last = 0 then .accept 0
      else if minI ≤ now - last then .accept (now - last)
      else .suppress (minI - (now - last)) := by
  by_cases hl : last = 0
  · simp [code_motion_decide, check_motion_interval, hl]
  · by_cases hge : minI ≤ now - (last : Int)
    · simp [code_motion_decide, check_motion_interval, hl, hge]
    · simp [code_motion_decide, check_motion_interval, hl, hge]

theorem spec_motion_decide_pin (now last minI : Nat) :
    spec_motion_decide .pinLevelWake now last minI =
      if last = 0 then .accept 0
      else if minI ≤ now - last then .accept ((now - last : Nat) : Int)
      else .suppress (((minI - (now - last) : Nat)) : Int) := by
  by_cases hl : last = 0
  · simp [spec_motion_decide, hl]
  · by_cases hge : minI ≤ now - last
    · simp [spec_motion_decide, hl, hge]
    · simp [spec_motion_decide, hl, hge]

/-- C1 amended: whenever the persisted timestamp does not exceed the
current time (no backwards clock), the code's decision agrees with the
specification's reference definition in every case, and a wake reason
other than a pin wake continues the boot without mutating RTC memory. -/
theorem motion_decide_matches_spec (wr : WakeReason) (now last minI : Nat)
    (mem : Option (List Nat)) (h : last ≤ now) :
    code_motion_decide wr (now : Int) last (minI : Int) =
      spec_motion_decide wr now last minI ∧
    (wr ≠ .pinLevelWake →
      handle_motion_wake wr now mem (minI : Int) = (.continueBoot, mem)) := by
  refine ⟨?_, ?_⟩
  · cases wr with
    | pinLevelWake =>
        rw [code_motion_decide_pin, spec_motion_decide_pin]
        by_cases hl : last = 0
        · simp [hl]
        · rw [if_neg hl, if_neg hl]
          by_cases hge : minI ≤ now - last
          · have hgeI : ((minI : Nat) : Int) ≤ (now : Int) - (last : Int) := by omega
            rw [if_pos hgeI, if_pos hge]
            have hcast : ((now : Int) - (last : Int)) = ((now - last : Nat) : Int) := by
              omega
            rw [hcast]
          · have hltI : ¬ (((minI : Nat) : Int) ≤ (now : Int) - (last : Int)) := by omega
            rw [if_neg hltI, if_neg hge]
            have hcast : ((minI : Nat) : Int) - ((now : Int) - (last : Int)) =
                ((minI - (now - last) : Nat) : Int) := by omega
            rw [hcast]
    | coldBootOrReset => rfl
    | timerExpired => rfl
    | unknown => rfl
  · intro hne
    rw [handle_motion_wake, if_neg hne]

/-- C1 amended witness: a timer wake at concrete values matches the
reference and leaves RTC memory untouched. -/
theorem motion_decide_matches_spec_witness :
    code_motion_decide .timerExpired ((1200 : Nat) : Int) 800 ((300 : Nat) : Int) =
      spec_motion_decide .timerExpired 1200 800 300 ∧
    handle_motion_wake .timerExpired 1200 (some [1, 2, 3]) ((300 : Nat) : Int) =
      (.continueBoot, some [1, 2, 3]) := by
  have h := motion_decide_matches_spec .timerExpired 1200 800 300 (some [1, 2, 3])
    (by decide)
  exact ⟨h.1, h.2 (by decide)⟩

/-- C3 counterexample: with the clock moved backwards (now 100, last 800,
cooldown 300) the code's elapsed value is the negative -700, refuting
"elapsed is never negative", and the suppress remaining is 1000, which
exceeds the cooldown 300. -/
theorem suppress_bound_counterexample :
    (check_motion_interval 100 800 300).2 = -700 ∧
    (check_motion_interval 100 800 300).2 < 0 ∧
    code_motion_decide .pinLevelWake 100 800 300 = .suppress 1000 ∧
    ¬ ((1000 : Int) ≤ 300) := by decide

/-- C3 amended: the elapsed value is the plain subtraction now - last and
may be negative; a suppress result always has a strictly positive
remaining time, but the upper bound remaining <= cooldown only holds when
the clock did not move backwards (last <= now). -/
theorem suppress_remaining_characterization (now : Int) (last : Nat) (minI : Int)
    (h1 : last ≠ 0) (h2 : (check_motion_interval now last minI).1 = false) :
    (check_motion_interval now last minI).2 = now - last ∧
    0 < minI - (check_motion_interval now last minI).2 ∧
    ((last : Int) ≤ now → minI - (check_motion_interval now last minI).2 ≤ minI) := by
  simp only [check_motion_interval, if_neg h1, ge_iff_le] at h2 ⊢
  by_cases hge : minI ≤ now - (last : Int)
  · rw [if_pos hge] at h2
    simp at h2
  · rw [if_neg hge] at h2 ⊢
    refine ⟨rfl, ?_, fun hle => ?_⟩
    · show 0 < minI - (now - (last : Int))
      omega
    · show minI - (now - (last : Int)) ≤ minI
      omega

/-- C3 amended witness: suppressing at now 1000, last 800, cooldown 300
gives elapsed 200 and remaining 100 with both bounds holding. -/
theorem suppress_remaining_characterization_witness :
    (check_motion_interval 1000 800 300).2 = 1000 - 800 ∧
    0 < (300 : Int) - (check_motion_interval 1000 800 300).2 ∧
    (300 : Int) - (check_motion_interval 1000 800 300).2 ≤ 300 := by
  have h := suppress_remaining_characterization 1000 800 300 (by decide) (by decide)
  exact ⟨h.1, h.2.1, h.2.2 (by decide)⟩

/- ## Sleep Planner: loop-body decision order (`src/main.py`, lines 202-322) -/

/-- Blocking action taken by one iteration of the `main_cycle` loop, in
order of execution: the STA config portal, one of the three sleep
variants, or the one-second idle wait of the off-boundary branch. -/
inductive CycleAction
  | runConfigPortal (duration_s : Int)
  | deepSleepWithPir (sleep_s : Int)
  | deepSleepTimerMs (ms : Int)
  | lightSleep (sleep_s : Int)
  | idleWait
deriving DecidableEq, Repr

/-- Ordered list of blocking actions performed by one iteration of the
`while True` loop in `main_cycle`: the CONFIG_MODE_REQUEST check runs
first (opening the STA portal for CONFIG_MODE_DURATION seconds and then
clearing the request), and only afterwards does the sensor-boundary
branch pick a sleep variant (deep sleep with PIR wake, timer-only deep
sleep, or light sleep), or the loop waits one second. -/
def main_cycle_iteration (config_mode_request : Bool) (config_mode_duration : Int)
    (current_time last_sensor_time sensor_interval : Int)
    (use_deep_sleep pir_enabled : Bool) (sleep_interval : Int) : List CycleAction :=
  (if config_mode_request then [.runConfigPortal config_mode_duration] else []) ++
  (if current_time - last_sensor_time ≥ sensor_interval then
    [if use_deep_sleep then
       (if pir_enabled then .deepSleepWithPir sleep_interval
        else .deepSleepTimerMs (sleep_interval * 1000))
     else .lightSleep sleep_interval]
   else [.idleWait])

/-- C2: a pending config-mode request has strict priority over every
sleep decision: the first blocking action of the loop iteration is
running the config portal for the requested duration, for every
configuration, including deep sleep with PIR enabled. -/
theorem config_request_priority (config_mode_duration : Int)
    (current_time last_sensor_time sensor_interval : Int)
    (use_deep_sleep pir_enabled : Bool) (sleep_interval : Int) :
    (main_cycle_iteration true config_mode_duration current_time last_sensor_time
        sensor_interval use_deep_sleep pir_enabled sleep_interval).head? =
      some (.runConfigPortal config_mode_duration) := rfl

/- ## Sleep Planner: deep sleep entry (`src/pir_wakeup.py`, lines 124-189) -/

/-- Final platform suspend call issued by `PIRWakeup.go_to_deep_sleep`. -/
inductive DeepSleepCall
  | forMs (ms : Int)
  | indefinite
deriving DecidableEq, Repr

/-- `PIRWakeup.setup_pir_interrupt`: the platform arming calls are
wrapped in a try/except; the function returns true on success and false
(after logging) when the platform raises, never propagating the
exception. -/
def setup_pir_interrupt (platform_arm : Except String Unit) : Bool :=
  match platform_arm with
  | .ok _ => true
  | .error _ => false

/-- `PIRWakeup.go_to_deep_sleep`: arm the PIR wake source, ignore the
boolean result, and call `deepsleep` with the requested duration in
milliseconds (or indefinitely when no duration, or a zero duration, is
given -- Python truthiness of `sleep_seconds`). -/
def go_to_deep_sleep (platform_arm : Except String Unit)
    (sleep_seconds : Option Int) : DeepSleepCall :=
  let _pir_armed := setup_pir_interrupt platform_arm
  match sleep_seconds with
  | some s => if s ≠ 0 then .forMs (s * 1000) else .indefinite
  | none => .indefinite

/-- C4: when arming the PIR wake source fails, `go_to_deep_sleep` does
not raise and does not stay awake: its suspend call is identical to the
one issued when arming succeeds, and for a nonzero requested duration it
is a deep sleep of exactly that duration. -/
theorem deep_sleep_ignores_arm_failure (platform_arm platform_arm' : Except String Unit)
    (s : Int) :
    go_to_deep_sleep platform_arm (some s) = go_to_deep_sleep platform_arm' (some s) ∧
    go_to_deep_sleep platform_arm (some s) =
      (if s ≠ 0 then .forMs (s * 1000) else .indefinite) := ⟨rfl, rfl⟩

/- ## Button Hold Classifier (`src/button.py`, lines 63-90) -/

/-- Classification returned by `ButtonManager.check_hold_on_boot`
(the source uses the strings factory_reset and config_sta). -/
inductive HoldResult
  | factory_reset
  | config_sta
deriving DecidableEq, Repr

/-- The polling loop of `check_hold_on_boot`: `press i` is the value of
the i-th `_pressed()` sample (sample 0 is the initial boot-time read, the
loop guard reads samples 1, 2, ...).  `k` counts completed iterations, so
the accumulated hold is `k / 10` seconds; the loop continues while the
sampled pin is pressed and the hold is below `max_wait_s`.  The fuel
argument only bounds the recursion; `hold_iterations` supplies enough of
it for the time cap to fire first. -/
def hold_poll (press : Nat → Bool) (max_wait_s : ℚ) : Nat → Nat → Nat
  | 0, k => k
  | fuel + 1, k =>
      if press (k + 1) = true ∧ ((k : ℚ) / 10 < max_wait_s) then
        hold_poll press max_wait_s fuel (k + 1)
      else k

/-- Number of completed 0.1-second polling iterations of
`check_hold_on_boot` for a given pin trace and wait cap. -/
def hold_iterations (press : Nat → Bool) (max_wait_s : ℚ) : Nat :=
  hold_poll press max_wait_s ((⌈max_wait_s * 10⌉).toNat + 1) 0

/-- `ButtonManager.check_hold_on_boot`: a single initial sample decides
the immediate-`None` path; otherwise the hold measured by the polling
loop is classified against `long_hold_s - 0.5` and then
`short_hold_s - 0.5`. -/
def check_hold_on_boot (press : Nat → Bool)
    (short_hold_s long_hold_s max_wait_s : ℚ) : Option HoldResult :=
  if press 0 = false then none
  else
    let hold : ℚ := (hold_iterations press max_wait_s : ℚ) / 10
    if hold ≥ long_hold_s - 1 / 2 then some .factory_reset
    else if hold ≥ short_hold_s - 1 / 2 then some .config_sta
    else none

theorem hold_poll_invariant (press : Nat → Bool) (mw : ℚ) :
    ∀ fuel k i, k ≤ i → i < hold_poll press mw fuel k →
      press (i + 1) = true ∧ (i : ℚ) / 10 < mw := by
  intro fuel
  induction fuel with
  | zero =>
      intro k i hki hi
      rw [hold_poll] at hi
      omega
  | succ m ih =>
      intro k i hki hi
      rw [hold_poll] at hi
      by_cases hg : press (k + 1) = true ∧ ((k : ℚ) / 10 < mw)
      · rw [if_pos hg] at hi
        rcases Nat.eq_or_lt_of_le hki with heq | hlt
        · subst heq
          exact hg
        · exact ih (k + 1) i hlt hi
      · rw [if_neg hg] at hi
        omega

theorem hold_poll_stop (press : Nat → Bool) (mw : ℚ) :
    ∀ fuel k, (⌈mw * 10⌉).toNat ≤ k + fuel →
      ¬ (press (hold_poll press mw fuel k + 1) = true ∧
          ((hold_poll press mw fuel k : ℚ)) / 10 < mw) := by
  intro fuel
  induction fuel with
  | zero =>
      intro k hfuel
      rw [hold_poll]
      rintro ⟨-, hlt⟩
      have h1 : (k : ℚ) < mw * 10 := by
        rw [div_lt_iff₀ (by norm_num)] at hlt
        linarith
      have h2 : (mw * 10 : ℚ) ≤ ((⌈mw * 10⌉ : Int) : ℚ) := Int.le_ceil _
      have h3 : ((k : Nat) : Int) < ⌈mw * 10⌉ := by exact_mod_cast lt_of_lt_of_le h1 h2
      omega
  | succ m ih =>
      intro k hfuel
      rw [hold_poll]
      by_cases hg : press (k + 1) = true ∧ ((k : ℚ) / 10 < mw)
      · rw [if_pos hg]
        exact ih (k + 1) (by omega)
      · rw [if_neg hg]
        exact hg

/-- C5: the classifier returns `none` from the single initial sample when
the pin is not pressed; otherwise it classifies the measured hold
(iterations / 10 seconds) against the 0.5-second tolerated thresholds,
every polled sample during the measured hold was pressed, and polling
stopped because the pin released or the wait cap was reached. -/
theorem check_hold_characterization (press : Nat → Bool)
    (short_hold_s long_hold_s max_wait_s : ℚ) :
    (press 0 = false →
      check_hold_on_boot press short_hold_s long_hold_s max_wait_s = none) ∧
    (press 0 = true →
      check_hold_on_boot press short_hold_s long_hold_s max_wait_s =
        (if ((hold_iterations press max_wait_s : ℚ) / 10) ≥ long_hold_s - 1 / 2 then
           some .factory_reset
         else if ((hold_iterations press max_wait_s : ℚ) / 10) ≥ short_hold_s - 1 / 2 then
           some .config_sta
         else none)) ∧
    (∀ i, i < hold_iterations press max_wait_s → press (i + 1) = true) ∧
    (press (hold_iterations press max_wait_s + 1) = false ∨
      max_wait_s ≤ (hold_iterations press max_wait_s : ℚ) / 10) := by
  refine ⟨?_, ?_, ?_, ?_⟩
  · intro h
    rw [check_hold_on_boot, if_pos h]
  · intro h
    rw [check_hold_on_boot, if_neg (by simp [h])]
  · intro i hi
    exact (hold_poll_invariant press max_wait_s ((⌈max_wait_s * 10⌉).toNat + 1) 0 i
      (Nat.zero_le i) hi).1
  · have hstop := hold_poll_stop press max_wait_s ((⌈max_wait_s * 10⌉).toNat + 1) 0
      (by omega)
    have hiter : hold_iterations press max_wait_s =
        hold_poll press max_wait_s ((⌈max_wait_s * 10⌉).toNat + 1) 0 := rfl
    rw [← hiter] at hstop
    rcases not_and_or.mp hstop with h | h
    · left
      simpa using h
    · right
      exact le_of_not_lt h

theorem hold_poll_eq_of (press : Nat → Bool) (mw : ℚ) :
    ∀ fuel k m, k ≤ m →
      (∀ i, k ≤ i → i < m → press (i + 1) = true ∧ (i : ℚ) / 10 < mw) →
      ¬ (press (m + 1) = true ∧ (m : ℚ) / 10 < mw) →
      m ≤ k + fuel →
      hold_poll press mw fuel k = m := by
  intro fuel
  induction fuel with
  | zero =>
      intro k m hkm hrun hstop hle
      rw [hold_poll]
      omega
  | succ f ih =>
      intro k m hkm hrun hstop hle
      rw [hold_poll]
      rcases Nat.eq_or_lt_of_le hkm with heq | hlt
      · subst heq
        rw [if_neg hstop]
      · rw [if_pos (hrun k le_rfl hlt)]
        exact ih (k + 1) m hlt (fun i hki hi => hrun i (by omega) hi) hstop (by omega)

/-- Concrete pin trace for the C5 witness: pressed on samples 0 to 55. -/
def press_example (i : Nat) : Bool := decide (i ≤ 55)

theorem press_example_iterations :
    hold_iterations press_example 21 = 55 := by
  have hfuel : ((⌈(21 : ℚ) * 10⌉).toNat + 1) = 211 := by norm_num; rfl
  rw [hold_iterations]
  refine hold_poll_eq_of press_example 21 _ 0 55 (by omega) ?_ ?_ (by rw [hfuel]; omega)
  · intro i _ hi
    refine ⟨by simp [press_example]; omega, ?_⟩
    have hq : (i : ℚ) < 210 := by exact_mod_cast (by omega : i < 210)
    rw [div_lt_iff₀ (by norm_num)]
    linarith
  · rintro ⟨hp, -⟩
    simp [press_example] at hp

/-- C5 witness: a 5.5-second hold (55 polling iterations) with short
threshold 5, long threshold 20 and wait cap 21 classifies as the STA
config portal. -/
theorem check_hold_characterization_witness :
    press_example 0 = true ∧
    check_hold_on_boot press_example 5 20 21 = some .config_sta := by
  have h := (check_hold_characterization press_example 5 20 21).2.1 rfl
  refine ⟨rfl, ?_⟩
  rw [h, press_example_iterations]
  rw [if_neg (by norm_num), if_pos (by norm_num)]

/- ## Indication Controller (`src/indication.py`, lines 163-194) -/

/-- Logical on/off state of the two LEDs (polarity-corrected; `none`
means the LED object is absent because its pin failed to initialize). -/
structure LedState where
  statusLed : Option Bool
  externalLed : Option Bool
deriving DecidableEq, Repr

/-- Drive the logical level `b` on every present and enabled LED, as the
try blocks of `blink` do (the internal LED's inverted wiring is already
folded into the logical view: `status_led.on()` is logical off). -/
def led_set_both (haveInt haveExt : Bool) (b : Bool) (s : LedState) : LedState :=
  ⟨if haveInt then some b else s.statusLed, if haveExt then some b else s.externalLed⟩

/-- One iteration of the `for` loop in `IndicationManager.blink`: both
LEDs logical off, sleep, both logical on, sleep. -/
def blink_step (haveInt haveExt : Bool) (s : LedState) : LedState :=
  led_set_both haveInt haveExt true (led_set_both haveInt haveExt false s)

/-- `IndicationManager.blink`: no-op when runtime indications are
disabled or no LED is present; otherwise run the loop `times` times and
afterwards drive logical off only when `final_on` is false. -/
def blink (runtime_enabled external_led_enabled : Bool) (times : Nat) (delay : ℚ)
    (final_on : Bool) (st : LedState) : LedState :=
  if runtime_enabled = false then st
  else if (st.statusLed.isSome || (st.externalLed.isSome && external_led_enabled)) = false then
    st
  else if final_on = false then
    led_set_both st.statusLed.isSome (st.externalLed.isSome && external_led_enabled) false
      ((blink_step st.statusLed.isSome (st.externalLed.isSome && external_led_enabled))^[times] st)
  else
    (blink_step st.statusLed.isSome (st.externalLed.isSome && external_led_enabled))^[times] st

/-- C8 counterexample: with runtime indications enabled and the internal
LED present but currently off, `blink` with `times = 0` and
`final_on = true` returns the state unchanged, so the LED is not left in
the `final_on` state. -/
theorem blink_final_state_counterexample :
    blink true true 0 0 true ⟨some false, none⟩ = ⟨some false, none⟩ ∧
    (blink true true 0 0 true ⟨some false, none⟩).statusLed ≠ some true := by
  exact ⟨rfl, by decide⟩

theorem blink_step_iterate (hInt hExt : Bool) (n : Nat) (s : LedState) (h : 1 ≤ n) :
    (hInt = true → ((blink_step hInt hExt)^[n] s).statusLed = some true) ∧
    (hExt = true → ((blink_step hInt hExt)^[n] s).externalLed = some true) := by
  obtain ⟨m, rfl⟩ : ∃ m, n = m + 1 := ⟨n - 1, by omega⟩
  rw [Function.iterate_succ_apply']
  constructor <;> intro h' <;> simp [blink_step, led_set_both, h']

/-- C8 amended: with runtime indications enabled and at least one LED
present, `blink` leaves every present (and enabled) LED in the `final_on`
logical state whenever `times >= 1` or `final_on` is false; in the
remaining case (`times = 0` with `final_on = true`) the LEDs keep their
prior state, as the counterexample shows. -/
theorem blink_final_state (ext_en : Bool) (times : Nat) (delay : ℚ) (final_on : Bool)
    (st : LedState)
    (hpresent : (st.statusLed.isSome || (st.externalLed.isSome && ext_en)) = true)
    (hnz : 1 ≤ times ∨ final_on = false) :
    (st.statusLed.isSome = true →
      (blink true ext_en times delay final_on st).statusLed = some final_on) ∧
    ((st.externalLed.isSome && ext_en) = true →
      (blink true ext_en times delay final_on st).externalLed = some final_on) := by
  have hblink : blink true ext_en times delay final_on st =
      (if final_on = false then
         led_set_both st.statusLed.isSome (st.externalLed.isSome && ext_en) false
           ((blink_step st.statusLed.isSome (st.externalLed.isSome && ext_en))^[times] st)
       else
         (blink_step st.statusLed.isSome (st.externalLed.isSome && ext_en))^[times] st) := by
    rw [blink, if_neg (by decide), if_neg (by simp [hpresent])]
  cases final_on with
  | false =>
      rw [hblink, if_pos rfl]
      constructor
      · intro h
        simp [led_set_both, h]
      · intro h
        simp [led_set_both, h]
  | true =>
      have ht : 1 ≤ times := by
        rcases hnz with h | h
        · exact h
        · cases h
      rw [hblink, if_neg (by decide)]
      exact ⟨fun h => (blink_step_iterate _ _ times st ht).1 h,
        fun h => (blink_step_iterate _ _ times st ht).2 h⟩

/-- C8 amended witness: a single blink with `final_on = true` on both
LEDs starting from off leaves both logically on. -/
theorem blink_final_state_witness :
    (blink true true 1 0 true ⟨some false, some false⟩).statusLed = some true ∧
    (blink true true 1 0 true ⟨some false, some false⟩).externalLed = some true := by
  have h := blink_final_state true 1 0 true ⟨some false, some false⟩ (by decide)
    (Or.inl (by decide))
  exact ⟨h.1 rfl, h.2 rfl⟩

/- ## Boot-time button classification wiring (`src/main.py` lines 328-340,
`src/button.py` lines 30-37, `src/config_manager.py`) -/

/-- Names of the methods the `ConfigManager` class defines
(`src/config_manager.py`); there is no `get_button_config` among them. -/
def configManagerMethods : List String :=
  ["__init__", "_load_config", "_save_config", "is_configured",
   "set_wifi_config", "set_mqtt_config", "set_device_names", "set_advanced_config",
   "set_logging_config", "set_ntp_config", "get_wifi_config", "get_mqtt_config",
   "get_advanced_config", "get_logging_config", "get_ntp_config", "get_device_names",
   "get_device_id", "set_pir_config", "set_gpio_config", "get_gpio_config",
   "get_pir_config", "clear_config", "enable_debug_mode", "disable_debug_mode",
   "get_all_config"]

/-- Python attribute-style errors surfaced by the embedding. -/
inductive PyError
  | attributeError
  | otherError (msg : String)
deriving DecidableEq, Repr

/-- Looking up a method on a `ConfigManager` instance: an
`AttributeError` when the class does not define it. -/
def lookup_config_manager_method (m : String) : Except PyError Unit :=
  if configManagerMethods.contains m then .ok () else .error .attributeError

/-- `ButtonManager.setup`: its first statement calls
`self.cfg.get_button_config()`; since `ConfigManager` defines no such
method the call raises `AttributeError` and nothing later in the method
runs. -/
def button_manager_setup : Except PyError Unit :=
  match lookup_config_manager_method "get_button_config" with
  | .error e => .error e
  | .ok _ => .ok ()

/-- `check_config_reset` in `src/main.py`: runs `ButtonManager.setup`
and `check_hold_on_boot` (with the constructor defaults short 5 s,
long 20 s, and `max_wait_s = 25`) inside a try/except that returns
`None` on any exception. -/
def check_config_reset (press : Nat → Bool) : Option HoldResult :=
  match button_manager_setup with
  | .error _ => none
  | .ok _ => check_hold_on_boot press 5 20 25

/-- Branch of `main` selected by the button classification. -/
inductive BootPath
  | factoryReset
  | staConfigPortal
  | normalBoot
deriving DecidableEq, Repr

/-- The dispatch on `act` in `main` (`src/main.py` lines 383-396). -/
def main_button_dispatch (act : Option HoldResult) : BootPath :=
  match act with
  | some .factory_reset => .factoryReset
  | some .config_sta => .staConfigPortal
  | none => .normalBoot

/-- C9: `ButtonManager.setup` fails with `AttributeError` on every boot,
`check_config_reset` therefore returns `None` for every pin trace, and
`main` always takes the normal boot path -- the factory-reset and
config-portal button branches are unreachable. -/
theorem button_classification_unreachable (press : Nat → Bool) :
    button_manager_setup = .error .attributeError ∧
    check_config_reset press = none ∧
    main_button_dispatch (check_config_reset press) = .normalBoot :=
  ⟨rfl, rfl, rfl⟩

/- ## Boot-time PIR auto-enable (`src/main.py` lines 399-414,
`src/config_manager.py` lines 170-232) -/

/-- The stored `pir` section of `device_config.json`; `use_deep_sleep`
is optional because older stored configs may lack the key. -/
structure PirStored where
  enabled : Bool
  pir_pin : Nat
  min_wake_interval : Int
  motion_timeout : Int
  use_deep_sleep : Option Bool
deriving DecidableEq, Repr

/-- The dictionary returned by `ConfigManager.get_pir_config`. -/
structure PirConfigView where
  enabled : Bool
  pir_pin : Nat
  min_wake_interval : Int
  motion_timeout : Int
  use_deep_sleep : Bool
deriving DecidableEq, Repr

/-- The slice of the persisted device configuration that the PIR
auto-enable logic touches: the two keys `is_configured` checks (empty
string standing for missing or falsy) and the gpio pin and pir
sections. -/
structure DeviceConfig where
  wifi_ssid : String
  mqtt_broker : String
  gpio_pir_pin : Option Nat
  pir : Option PirStored
deriving DecidableEq, Repr

/-- `ConfigManager.is_configured`: requires a truthy WiFi SSID and MQTT
broker. -/
def is_configured (c : DeviceConfig) : Bool :=
  (c.wifi_ssid != "") && (c.mqtt_broker != "")

/-- The `pir_pin` entry of `ConfigManager.get_gpio_config` (default
GPIO 5). -/
def get_gpio_pir_pin (c : DeviceConfig) : Nat :=
  c.gpio_pir_pin.getD 5

/-- `ConfigManager.get_pir_config`: defaults for a missing section are
disabled, cooldown 300, timeout 30, deep sleep; the pin always mirrors
the GPIO config and a missing `use_deep_sleep` key defaults to true. -/
def get_pir_config (c : DeviceConfig) : PirConfigView :=
  match c.pir with
  | none => ⟨false, get_gpio_pir_pin c, 300, 30, true⟩
  | some p => ⟨p.enabled, get_gpio_pir_pin c, p.min_wake_interval, p.motion_timeout,
      p.use_deep_sleep.getD true⟩

/-- `ConfigManager.set_pir_config`: overwrite the `pir` section with the
given values and save the file. -/
def set_pir_config (c : DeviceConfig) (pir_enabled : Bool) (pir_pin : Nat)
    (min_wake_interval motion_timeout : Int) (use_deep_sleep : Bool) : DeviceConfig :=
  { c with pir := some ⟨pir_enabled, pir_pin, min_wake_interval, motion_timeout,
      some use_deep_sleep⟩ }

/-- The auto-enable block of `main`: when the device is configured and
the stored PIR config is disabled, rewrite it as enabled with light
sleep (keeping pin, cooldown and timeout) and save, before the main
cycle starts. -/
def main_pir_auto_enable (c : DeviceConfig) : DeviceConfig :=
  if is_configured c = true then
    if (get_pir_config c).enabled = false then
      set_pir_config c true (get_pir_config c).pir_pin
        (get_pir_config c).min_wake_interval (get_pir_config c).motion_timeout false
    else c
  else c

/-- C10: on every configured boot whose stored PIR config is disabled,
`main` rewrites and saves the config store with the PIR section enabled
and `use_deep_sleep` false before entering the main cycle, so a stored
"PIR disabled" setting does not survive the boot. -/
theorem boot_rewrites_pir_config (c : DeviceConfig)
    (h1 : is_configured c = true) (h2 : (get_pir_config c).enabled = false) :
    (main_pir_auto_enable c).pir =
      some ⟨true, (get_pir_config c).pir_pin, (get_pir_config c).min_wake_interval,
        (get_pir_config c).motion_timeout, some false⟩ ∧
    (get_pir_config (main_pir_auto_enable c)).enabled = true ∧
    (get_pir_config (main_pir_auto_enable c)).use_deep_sleep = false := by
  have hm : main_pir_auto_enable c =
      set_pir_config c true (get_pir_config c).pir_pin
        (get_pir_config c).min_wake_interval (get_pir_config c).motion_timeout false := by
    rw [main_pir_auto_enable, if_pos h1, if_pos h2]
  refine ⟨?_, ?_, ?_⟩ <;> rw [hm] <;> simp [set_pir_config, get_pir_config]

/-- C10 witness: a freshly configured device with no stored PIR section
boots into an enabled, light-sleep PIR config. -/
theorem boot_rewrites_pir_config_witness :
    (main_pir_auto_enable ⟨"net", "broker", none, none⟩).pir =
      some ⟨true, 5, 300, 30, some false⟩ ∧
    (get_pir_config (main_pir_auto_enable ⟨"net", "broker", none, none⟩)).enabled = true ∧
    (get_pir_config (main_pir_auto_enable ⟨"net", "broker", none, none⟩)).use_deep_sleep =
      false := by
  have h := boot_rewrites_pir_config ⟨"net", "broker", none, none⟩ (by decide) (by decide)
  exact ⟨h.1, h.2.1, h.2.2⟩

end SensDot
